import Mathlib

set_option maxHeartbeats 1000000

namespace StealthSeller

/-!
Shallow embedding of the batch routing / claiming / persistence core of the
stealthseller backend.  Pure functions are translated directly from the
TypeScript source; database and network collaborators are modelled as explicit
state (a list of rows) or as outcome oracles passed in as arguments.
-/

/-! ### Routing decision engine (src/supabase/functions/_domain/routing.ts) -/

inductive Route
  | edge
  | queue
  | skip
deriving DecidableEq, Repr

structure RoutingDecision where
  route : Route
  reason : String
  threshold : Int
deriving DecidableEq, Repr

/-- LIMITS.MAX_NEW_PRODUCTS from _domain/constants.ts -/
def MAX_NEW_PRODUCTS : Int := 3000

/-- LIMITS.EDGE_THRESHOLD from _domain/constants.ts -/
def EDGE_THRESHOLD : Int := 50

/-- Translation of shouldUseQueue from _domain/routing.ts.  The two optional
parameters are modelled as Option; the mutable dynamicThreshold / reasons pair
is threaded explicitly. -/
def shouldUseQueue (productCount : Int) (tokenPercent : Option Int)
    (recentUsage : Option Int) : RoutingDecision :=
  if productCount ≤ 0 then
    { route := Route.skip, reason := "No products to process", threshold := 0 }
  else if productCount > MAX_NEW_PRODUCTS then
    { route := Route.skip
      reason := "Exceeds maximum limit of " ++ toString MAX_NEW_PRODUCTS ++ " products"
      threshold := MAX_NEW_PRODUCTS }
  else
    let step1 : Int × List String :=
      match tokenPercent with
      | some p =>
        if p < 30 then (20, ["Low token availability (<30%)"])
        else if p > 80 then (75, ["High token availability (>80%)"])
        else (EDGE_THRESHOLD, [])
      | none => (EDGE_THRESHOLD, [])
    let step2 : Int × List String :=
      match recentUsage with
      | some u =>
        if u > 2000 then (min step1.1 20, step1.2 ++ ["Heavy recent usage (>2000 tokens/hour)"])
        else step1
      | none => step1
    if productCount > step2.1 then
      { route := Route.queue
        reason :=
          if step2.2.length > 0 then "Queue processing: " ++ String.intercalate ", " step2.2
          else "Product count (" ++ toString productCount ++ ") exceeds threshold ("
            ++ toString step2.1 ++ ")"
        threshold := step2.1 }
    else
      { route := Route.edge
        reason := "Edge processing: Product count (" ++ toString productCount
          ++ ") within threshold (" ++ toString step2.1 ++ ")"
        threshold := step2.1 }

/-! ### Batch splitter (src/supabase/functions/_domain/asins.ts) -/

/-- Fuel-indexed chunking loop: translation of the traversal
for i = 0; i < items.length; i += maxSize pushing items.slice(i, i + maxSize).
The fuel is the list length, which bounds the number of iterations whenever
the step m is at least one. -/
def chunkAux {α : Type} (m : Nat) : Nat → List α → List (List α)
  | 0, _ => []
  | fuel + 1, l => if l.isEmpty then [] else l.take m :: chunkAux m fuel (l.drop m)

/-- Translation of splitIntoBatches from _domain/asins.ts: degenerate inputs
(empty list, non-positive maxSize) return an empty batch list. -/
def splitIntoBatches {α : Type} (items : List α) (maxSize : Int) : List (List α) :=
  if items.isEmpty ∨ maxSize ≤ 0 then []
  else chunkAux maxSize.toNat items.length items

/-! ### Delta detector (src/supabase/functions/_domain/asins.ts) -/

/-- Model of JavaScript's toUpperCase as a character-wise map (core
String.toUpper performs the same map, but through an accumulator that the
kernel cannot evaluate). -/
def upper (s : String) : String :=
  String.mk (s.data.map Char.toUpper)

/-- Translation of determineNewAsins: uppercase the existing set, keep the
truthy incoming strings, uppercase them, and drop those present in the
existing set.  JavaScript Set membership is modelled by list membership. -/
def determineNewAsins (existing incoming : List String) : List String :=
  let existingSet := existing.map upper
  ((incoming.filter (fun a => a != "")).map upper).filter
    (fun a => ! existingSet.contains a)

/-! ### Batch claim engine (src/supabase/functions/_infrastructure/queue.ts)

The product_batches table is modelled as a list of rows and each supabase
statement as a pure function on it.  Timestamps are integer milliseconds. -/

structure BatchRow where
  id : Nat
  seller_id : String
  status : String
  processing_by : Option String
  priority : String
  created_at : Int
  started_at : Option Int
  updated_at : Int
deriving DecidableEq, Repr

def rowIds (l : List BatchRow) : List Nat := l.map (fun b => b.id)

/-- Sort key of the claim selects: order by priority descending then
created_at ascending. -/
def rowLE (a b : BatchRow) : Bool :=
  if a.priority == b.priority then decide (a.created_at ≤ b.created_at)
  else decide (b.priority < a.priority)

/-- Model of the ORDER BY clause of the claim selects. -/
def sortRows (l : List BatchRow) : List BatchRow :=
  List.insertionSort (fun a b => rowLE a b = true) l

/-- The field mutation performed by every claim UPDATE: set processing_by,
force status PROCESSING and refresh started_at / updated_at. -/
def applyClaim (b : BatchRow) (workerId : String) (now : Int) : BatchRow :=
  { b with processing_by := some workerId, status := "PROCESSING",
           started_at := some now, updated_at := now }

/-- Model of update(...).in('id', ids).select(): the update applies to every
row whose id is listed, with NO precondition on status or processing_by, and
the updated rows are returned.  First component: rows returned; second: the
new table state. -/
def updateByIds (st : List BatchRow) (ids : List Nat) (workerId : String)
    (now : Int) : List BatchRow × List BatchRow :=
  let st' := st.map (fun b => if ids.contains b.id then applyClaim b workerId now else b)
  (st'.filter (fun b => ids.contains b.id), st')

/-- Common shape of the three claim helpers: filtered, ordered, limited
select of candidate rows followed by an unconditional update-by-id. -/
def claimWhere (st : List BatchRow) (pred : BatchRow → Bool) (workerId : String)
    (lim : Nat) (now : Int) : List BatchRow × List BatchRow :=
  let sel := (sortRows (st.filter pred)).take lim
  if sel.isEmpty then ([], st)
  else updateByIds st (sel.map (fun b => b.id)) workerId now

/-- Row filter of the tier-1 select: PENDING, unclaimed, owned seller. -/
def assignedPred (sellerId : String) (b : BatchRow) : Bool :=
  b.seller_id == sellerId && b.status == "PENDING" && b.processing_by == none

/-- Row filter of the tier-2 (orphan) select: PROCESSING and started more
than ten minutes (600000 ms) ago. -/
def orphanEligible (now : Int) (b : BatchRow) : Bool :=
  b.status == "PROCESSING" &&
    (match b.started_at with
     | some t => decide (t < now - 600000)
     | none => false)

/-- Row filter of the tier-3 select: PENDING, unclaimed, any other seller. -/
def crossSellerPred (sellerId : String) (b : BatchRow) : Bool :=
  b.status == "PENDING" && b.processing_by == none && b.seller_id != sellerId

/-- Tier 1: claimAssignedSeller from _infrastructure/queue.ts. -/
def claimAssignedSeller (st : List BatchRow) (sellerId workerId : String)
    (lim : Nat) (now : Int) : List BatchRow × List BatchRow :=
  claimWhere st (assignedPred sellerId) workerId lim now

/-- Tier 2: claimOrphanedBatches from _infrastructure/queue.ts. -/
def claimOrphanedBatches (st : List BatchRow) (workerId : String)
    (lim : Nat) (now : Int) : List BatchRow × List BatchRow :=
  claimWhere st (orphanEligible now) workerId lim now

/-- Tier 3: claimCrossSellerBatches from _infrastructure/queue.ts. -/
def claimCrossSellerBatches (st : List BatchRow) (sellerId workerId : String)
    (lim : Nat) (now : Int) : List BatchRow × List BatchRow :=
  claimWhere st (crossSellerPred sellerId) workerId lim now

/-- One iteration of the while loop of claimProductBatches: the three tiers
in order, each offered only the capacity the previous tiers left. -/
def claimRound (st : List BatchRow) (sellerId workerId : String) (now : Int)
    (cap : Nat) : List BatchRow × List BatchRow :=
  let p1 := claimAssignedSeller st sellerId workerId cap now
  let cap1 := cap - p1.1.length
  let p2 := if 0 < cap1 then claimOrphanedBatches p1.2 workerId cap1 now else ([], p1.2)
  let cap2 := cap1 - p2.1.length
  let p3 := if 0 < cap2 then claimCrossSellerBatches p2.2 sellerId workerId cap2 now
            else ([], p2.2)
  (p1.1 ++ p2.1 ++ p3.1, p3.2)

/-- The while loop of claimProductBatches, fuel = maxAttempts − attemptCount.
It stops when the capacity is exhausted, when a round claims nothing, or when
the fuel (3 rounds) runs out. -/
def claimLoop (sellerId workerId : String) (now : Int) :
    Nat → List BatchRow → Nat → List BatchRow × List BatchRow
  | 0, st, _ => ([], st)
  | fuel + 1, st, cap =>
    if cap = 0 then ([], st)
    else
      let r := claimRound st sellerId workerId now cap
      if r.1.isEmpty then ([], r.2)
      else
        let rest := claimLoop sellerId workerId now fuel r.2 (cap - r.1.length)
        (r.1 ++ rest.1, rest.2)

/-- Translation of claimProductBatches: maxAttempts = 3. -/
def claimProductBatches (st : List BatchRow) (sellerId workerId : String)
    (lim : Nat) (now : Int) : List BatchRow × List BatchRow :=
  claimLoop sellerId workerId now 3 st lim

/-- Spec-side refinement definition, following the specification text: the
tier sequence is run at most 3 times (round 1, round 2, round 3 written out),
stopping early as soon as a round claims zero batches or the remaining
capacity reaches zero. -/
def claimSpecThreeRounds (st : List BatchRow) (sellerId workerId : String)
    (lim : Nat) (now : Int) : List BatchRow × List BatchRow :=
  if lim = 0 then ([], st)
  else
    let r1 := claimRound st sellerId workerId now lim
    if r1.1.isEmpty then ([], r1.2)
    else
      let cap1 := lim - r1.1.length
      if cap1 = 0 then (r1.1, r1.2)
      else
        let r2 := claimRound r1.2 sellerId workerId now cap1
        if r2.1.isEmpty then (r1.1, r2.2)
        else
          let cap2 := cap1 - r2.1.length
          if cap2 = 0 then (r1.1 ++ r2.1, r2.2)
          else
            let r3 := claimRound r2.2 sellerId workerId now cap2
            (r1.1 ++ r2.1 ++ r3.1, r3.2)

/-! ### Concrete race trace for the claim tiers

Two workers run claimAssignedSeller concurrently on the same one-batch table.
Each call is two database statements (the SELECT and the UPDATE); the
interleaving is A.select, B.select, A.update, B.update. -/

/-- The shared table: one PENDING, unclaimed batch of seller S1. -/
def raceState : List BatchRow :=
  [{ id := 1, seller_id := "S1", status := "PENDING", processing_by := none,
     priority := "HIGH", created_at := 0, started_at := none, updated_at := 0 }]

/-- The select phase of worker A's claimAssignedSeller call (limit 1). -/
def raceSelectA : List Nat :=
  (((sortRows (raceState.filter (assignedPred "S1")))).take 1).map (fun b => b.id)

/-- Worker B's select phase, issued before worker A's update lands: it reads
the same table state and picks the same ids. -/
def raceSelectB : List Nat :=
  (((sortRows (raceState.filter (assignedPred "S1")))).take 1).map (fun b => b.id)

/-- Worker A's update phase. -/
def raceStepA : List BatchRow × List BatchRow :=
  updateByIds raceState raceSelectA "workerA" 1000

/-- Worker B's update phase, applied to the state worker A left behind. -/
def raceStepB : List BatchRow × List BatchRow :=
  updateByIds raceStepA.2 raceSelectB "workerB" 1001

/-! ### Demo table for witnesses of the claim-engine theorems -/

def demoState : List BatchRow :=
  [{ id := 1, seller_id := "S1", status := "PENDING", processing_by := none,
     priority := "HIGH", created_at := 0, started_at := none, updated_at := 0 },
   { id := 2, seller_id := "S2", status := "PENDING", processing_by := none,
     priority := "LOW", created_at := 5, started_at := none, updated_at := 5 }]

/-! ### Two-phase persistence (src/supabase/functions/_shared/keepa.ts)

insertProducts builds one template record and one seller record per product,
then upserts all templates (phase 1) and, only if that succeeded, upserts all
seller link records (phase 2).  The two upserts are collaborator calls,
modelled as outcome oracles; the trace records whether phase 2 ran and which
link rows were durably written. -/

structure KeepaProduct where
  asin : String
  title : Option String
  brand : Option String
  category : Option String
  salesRank : Option Int
  storefrontPrice : Option Int
  buyBoxPrice : Option Int
  stockCount : Option Int
  rating : Option Int
  ratingCount : Option Int
  monthlySold : Option Int
  imagesCSV : Option String
  isFBA : Option Bool
  isFBM : Option Bool
  firstSeenAt : Option String
deriving DecidableEq, Repr

structure TemplateRecord where
  asin_id : String
  domain : Int
  title : Option String
  brand : Option String
  category : Option String
  images : List String
  product_url : String
  updated_at : String
deriving DecidableEq, Repr

/-- The in-memory seller record built per product; _asin_id and _domain are
the temporary template-linking fields of the source. -/
structure PrepSellerRecord where
  seller_id : String
  asin_id : String
  domain : Int
  temp_asin_id : String
  temp_domain : Int
  sales_rank : Option Int
  storefront_price : Option Int
  buy_box_price : Option Int
  stock_count : Option Int
  rating : Option Int
  rating_count : Option Int
  monthly_sales : Option Int
  is_fba : Option Bool
  is_fbm : Option Bool
  first_seen_at : Option String
  processing_source : String
  created_at : String
  updated_at : String
deriving DecidableEq, Repr

/-- The link row shape written by the phase-2 upsert. -/
structure SellerLinkRecord where
  seller_id : String
  asin_id : String
  domain : Int
  product_template_id : Option Nat
  sales_rank : Option Int
  storefront_price : Option Int
  buy_box_price : Option Int
  stock_count : Option Int
  rating : Option Int
  rating_count : Option Int
  monthly_sales : Option Int
  is_fba : Option Bool
  is_fbm : Option Bool
  first_seen_at : Option String
  processing_source : String
  created_at : String
  updated_at : String
deriving DecidableEq, Repr

/-- Shape of the rows returned by the phase-1 upsert's select('id,asin_id,domain'). -/
structure TemplateResult where
  id : Nat
  asin_id : String
  domain : Int
deriving DecidableEq, Repr

structure InsertResult where
  success : Nat
  failed : Nat
  errors : List String
deriving DecidableEq, Repr

/-- Outcomes of the two collaborator upserts. -/
structure DbOutcome where
  templateUpsert : Except String (List TemplateResult)
  sellerUpsert : Except String Unit

/-- Trace of one insertProducts call: its returned counters, whether the
phase-2 link upsert was issued, and the link rows durably written. -/
structure InsertTrace where
  result : InsertResult
  phase2Called : Bool
  linkRowsWritten : List SellerLinkRecord
deriving Repr

/-- Image-id extraction of insertProducts: split imagesCSV on commas, trim,
keep the non-empty parts. -/
def imageIdsOf (csv : Option String) : List String :=
  match csv with
  | none => []
  | some s => ((s.splitOn ",").map (fun p => p.trim)).filter (fun t => t != "")

def mkTemplateRecord (p : KeepaProduct) (domain : Int) (nowIso : String) :
    TemplateRecord :=
  { asin_id := p.asin, domain := domain, title := p.title, brand := p.brand,
    category := p.category, images := imageIdsOf p.imagesCSV,
    product_url := "https://amazon.com/dp/" ++ p.asin, updated_at := nowIso }

def mkPrepSellerRecord (sellerId : String) (p : KeepaProduct) (domain : Int)
    (processingSource nowIso : String) : PrepSellerRecord :=
  { seller_id := sellerId, asin_id := p.asin, domain := domain,
    temp_asin_id := p.asin, temp_domain := domain, sales_rank := p.salesRank,
    storefront_price := p.storefrontPrice, buy_box_price := p.buyBoxPrice,
    stock_count := p.stockCount, rating := p.rating,
    rating_count := p.ratingCount, monthly_sales := p.monthlySold,
    is_fba := p.isFBA, is_fbm := p.isFBM, first_seen_at := p.firstSeenAt,
    processing_source := processingSource, created_at := nowIso,
    updated_at := nowIso }

/-- The template lookup key of insertProducts: asin_id ++ "-" ++ domain. -/
def templKey (a : String) (d : Int) : String := a ++ "-" ++ toString d

/-- Phase-2 row construction: resolve product_template_id through the
in-memory association built from the phase-1 results. -/
def linkOfPrep (r : PrepSellerRecord) (templateMap : List (String × Nat)) :
    SellerLinkRecord :=
  { seller_id := r.seller_id, asin_id := r.asin_id, domain := r.domain,
    product_template_id :=
      (templateMap.lookup (templKey r.temp_asin_id r.temp_domain)),
    sales_rank := r.sales_rank, storefront_price := r.storefront_price,
    buy_box_price := r.buy_box_price, stock_count := r.stock_count,
    rating := r.rating, rating_count := r.rating_count,
    monthly_sales := r.monthly_sales, is_fba := r.is_fba, is_fbm := r.is_fbm,
    first_seen_at := r.first_seen_at, processing_source := r.processing_source,
    created_at := r.created_at, updated_at := r.updated_at }

/-- Translation of insertProducts from _shared/keepa.ts.  Record preparation
is total here (the source's per-product try/catch never fires on well-typed
input), so validRecords is the whole product list. -/
def insertProducts (sellerId : String) (products : List KeepaProduct)
    (domain : Int) (db : DbOutcome) (processingSource nowIso : String) :
    InsertTrace :=
  let validRecords := products.map
    (fun p => (mkTemplateRecord p domain nowIso,
               mkPrepSellerRecord sellerId p domain processingSource nowIso))
  if validRecords.isEmpty then
    { result := { success := 0, failed := 0, errors := [] },
      phase2Called := false, linkRowsWritten := [] }
  else
    match db.templateUpsert with
    | Except.error msg =>
      { result := { success := 0, failed := validRecords.length,
                    errors := ["Template batch insert failed: " ++ msg] },
        phase2Called := false, linkRowsWritten := [] }
    | Except.ok templateResults =>
      let templateMap := templateResults.map
        (fun t => (templKey t.asin_id t.domain, t.id))
      let sellerRecords := validRecords.map (fun r => linkOfPrep r.2 templateMap)
      match db.sellerUpsert with
      | Except.error msg =>
        { result := { success := 0, failed := validRecords.length,
                      errors := ["Seller batch insert failed: " ++ msg] },
          phase2Called := true, linkRowsWritten := [] }
      | Except.ok _ =>
        { result := { success := validRecords.length, failed := 0, errors := [] },
          phase2Called := true, linkRowsWritten := sellerRecords }

/-! ### Batch processor (src/supabase/functions/_shared/batch-processor.ts)

processProductBatch is modelled on its happy control flow, with the batch
record insert, the Keepa fetch and the two persistence upserts supplied as
outcome oracles.  Status updates to the product_batches row are logged in
order; wall-clock timing is not modelled. -/

structure StatusWrite where
  status : String
  error_message : Option String
deriving DecidableEq, Repr

structure ProcessOptions where
  batchId : Option String
  userId : Option String
  source : String
  createBatch : Bool
deriving Repr

structure ProcessOracles where
  createBatchResult : Except String String
  fetchResult : Except String (List KeepaProduct)
  db : DbOutcome

structure BatchProcessingResult where
  success : Bool
  processedCount : Nat
  failedCount : Nat
  errors : List String
  batchId : String
  errorType : Option String
  canFallbackToQueue : Bool
  batchStatus : String
deriving Repr

/-- Substring test used to classify Keepa errors (JavaScript
String.prototype.includes). -/
def containsSub (s sub : String) : Bool :=
  decide (sub.data <:+: s.data)

/-- EDGE_FUNCTION_LIMIT and MAX_BATCH_SIZE from _shared/batch-processor.ts. -/
def maxProductsFor (source : String) : Nat :=
  if source == "EDGE" then 50 else 100

/-- Translation of processProductBatch.  Returns the caller-visible result
and the ordered log of status writes to the product_batches row. -/
def processProductBatch (sellerUuid : String) (asins : List String)
    (domain : Int) (keepaSellerId : String) (opts : ProcessOptions)
    (oracles : ProcessOracles) (nowIso : String) :
    BatchProcessingResult × List StatusWrite :=
  if asins.isEmpty then
    ({ success := false, processedCount := 0, failedCount := 0,
       errors := ["No ASINs provided for processing"],
       batchId := opts.batchId.getD "", errorType := some "HARD",
       canFallbackToQueue := false, batchStatus := "FAILED" }, [])
  else if asins.length > maxProductsFor opts.source then
    ({ success := false, processedCount := 0, failedCount := 0,
       errors := ["Batch size " ++ toString asins.length ++ " exceeds "
         ++ opts.source ++ " limit of " ++ toString (maxProductsFor opts.source)
         ++ " products"],
       batchId := opts.batchId.getD "", errorType := some "HARD",
       canFallbackToQueue := opts.source == "EDGE", batchStatus := "FAILED" }, [])
  else
    let created : Except String String :=
      if opts.createBatch then oracles.createBatchResult
      else Except.ok (opts.batchId.getD "")
    match created with
    | Except.error msg =>
      ({ success := false, processedCount := 0, failedCount := asins.length,
         errors := ["Failed to create batch record: " ++ msg], batchId := "",
         errorType := some "HARD", canFallbackToQueue := false,
         batchStatus := "FAILED" }, [])
    | Except.ok batchId =>
      -- step 2: best-effort PROCESSING update (an error is only logged)
      let writes1 : List StatusWrite := [{ status := "PROCESSING", error_message := none }]
      match oracles.fetchResult with
      | Except.error msg =>
        let transient := containsSub msg "timeout" || containsSub msg "network"
          || containsSub msg "rate limit" || containsSub msg "503"
          || containsSub msg "502"
        ({ success := false, processedCount := 0, failedCount := asins.length,
           errors := ["Keepa API error: " ++ msg], batchId := batchId,
           errorType := some (if transient then "TRANSIENT" else "HARD"),
           canFallbackToQueue := transient && opts.source == "EDGE",
           batchStatus := "FAILED" },
         writes1 ++ [{ status := "FAILED",
                       error_message := some ("Keepa API error: " ++ msg) }])
      | Except.ok products =>
        let tr := insertProducts sellerUuid products domain oracles.db
          opts.source nowIso
        let finalStatus :=
          if tr.result.success > 0 then
            (if tr.result.failed > 0 then "PARTIAL" else "COMPLETED")
          else "FAILED"
        let finalWrite : StatusWrite :=
          { status := if finalStatus == "PARTIAL" then "COMPLETED" else finalStatus,
            error_message :=
              if tr.result.failed > 0 then
                some (toString tr.result.failed ++ " products failed to insert")
              else none }
        ({ success := tr.result.success > 0,
           processedCount := tr.result.success,
           failedCount := tr.result.failed,
           errors :=
             if tr.result.failed > 0 then
               [toString tr.result.failed ++ " products failed to process"]
             else [],
           batchId := batchId, errorType := none,
           canFallbackToQueue := false, batchStatus := finalStatus },
         writes1 ++ [finalWrite])

/-! ### Queue-path enqueue (src/supabase/functions/_infrastructure/queue.ts) -/

/-- BATCH_SIZE from _infrastructure/queue.ts. -/
def QUEUE_BATCH_SIZE : Nat := 100

/-- SMART_ROUTING_THRESHOLD from _infrastructure/queue.ts. -/
def SMART_ROUTING_THRESHOLD : Nat := 200

/-- ESTIMATED_TOKENS_PER_PRODUCT from _infrastructure/queue.ts. -/
def ESTIMATED_TOKENS_PER_PRODUCT : Nat := 7

structure QueueBatchRecord where
  seller_id : String
  user_id : Option String
  product_count : Nat
  new_asins : List String
  status : String
  priority : String
  job_type : String
  batch_type : String
  estimated_tokens : Nat
  requested_by_user_id : Option String
  available_for_confirmation : Bool
  confirmation_offered_to_user_ids : List String
deriving DecidableEq, Repr

/-- One tasks.trigger("product-batches", payload) call. -/
structure TriggerCall where
  sellerId : String
  priority : String
deriving DecidableEq, Repr

/-- Collaborator outcomes read by enqueueProductBatches: the existing-batch
check, the bulk insert, and the active Trigger.dev task count. -/
structure EnqueueOracles where
  shouldCreateNew : Bool
  insertOk : Bool
  activeCount : Nat

/-- The record-building loop of createSmartBatches: one PENDING record per
100-item slice, all sharing the batch-level fields of baseRecord, with the
priority decided by the call's total product count against 200. -/
def createSmartBatchRecords (sellerUuid : String) (asinList : List String)
    (userId : Option String) (isTimeMachine : Bool) : List QueueBatchRecord :=
  (chunkAux QUEUE_BATCH_SIZE asinList.length asinList).map (fun c =>
    { seller_id := sellerUuid, user_id := userId, product_count := c.length,
      new_asins := c, status := "PENDING",
      priority := if asinList.length ≤ SMART_ROUTING_THRESHOLD then "HIGH" else "LOW",
      job_type := if isTimeMachine then "TIME_MACHINE" else "MONITORING",
      batch_type := "NEW_ASINS",
      estimated_tokens := c.length * ESTIMATED_TOKENS_PER_PRODUCT,
      requested_by_user_id := userId, available_for_confirmation := false,
      confirmation_offered_to_user_ids := [] })

/-- Effects of enqueueProductBatches: the batch records durably inserted and
the trigger calls dispatched.  The response payload (messages, time
estimates) is not modelled.  No batches are created when the existing-batch
check says to reuse, or when the bulk insert fails; the single trigger call
is skipped when 3 or more product-batches tasks are already running. -/
def enqueueProductBatches (sellerUuid : String) (newProducts : List String)
    (userId : Option String) (isTimeMachine : Bool) (env : EnqueueOracles) :
    List QueueBatchRecord × List TriggerCall :=
  if env.shouldCreateNew = false then ([], [])
  else
    let records := createSmartBatchRecords sellerUuid newProducts userId isTimeMachine
    if env.insertOk = false then ([], [])
    else if records.isEmpty then ([], [])
    else if 3 ≤ env.activeCount then (records, [])
    else (records,
      [{ sellerId := sellerUuid,
         priority := if newProducts.length ≤ SMART_ROUTING_THRESHOLD then "HIGH" else "LOW" }])

/-! ### Demo inputs for the persistence and processor witnesses -/

def demoProduct : KeepaProduct :=
  { asin := "B000TEST01", title := some "T", brand := none, category := none,
    salesRank := some 5, storefrontPrice := none, buyBoxPrice := none,
    stockCount := none, rating := none, ratingCount := none,
    monthlySold := none, imagesCSV := some "a.jpg, b.jpg", isFBA := some true,
    isFBM := none, firstSeenAt := none }

def demoDbPhase1Fail : DbOutcome :=
  { templateUpsert := Except.error "boom", sellerUpsert := Except.ok () }

def demoDbOk : DbOutcome :=
  { templateUpsert := Except.ok [{ id := 7, asin_id := "B000TEST01", domain := 1 }],
    sellerUpsert := Except.ok () }

def demoInsertFailTrace : InsertTrace :=
  insertProducts "seller-1" [demoProduct] 1 demoDbPhase1Fail "EDGE" "t0"

def demoProcessOpts : ProcessOptions :=
  { batchId := some "b1", userId := none, source := "TRIGGER_DEV",
    createBatch := false }

def demoProcessOracles : ProcessOracles :=
  { createBatchResult := Except.ok "b1",
    fetchResult := Except.ok [demoProduct], db := demoDbOk }

def demoProcessRun : BatchProcessingResult × List StatusWrite :=
  processProductBatch "seller-1" ["B000TEST01"] 1 "KSELLER" demoProcessOpts
    demoProcessOracles "t0"

end StealthSeller

namespace StealthSeller

/-! ### Theorems: splitter (C8) -/

theorem chunkAux_flatten {α : Type} (m : Nat) (hm : 0 < m) :
    ∀ fuel (l : List α), l.length ≤ fuel → (chunkAux m fuel l).flatten = l := by
  intro fuel
  induction fuel with
  | zero =>
    intro l hl
    have : l = [] := List.length_eq_zero.mp (Nat.le_zero.mp hl)
    simp [this, chunkAux]
  | succ n ih =>
    intro l hl
    by_cases h : l.isEmpty
    · simp [chunkAux, h, List.isEmpty_iff.mp h]
    · have hlen : (l.drop m).length ≤ n := by
        have hpos : 0 < l.length := by
          cases l with
          | nil => simp at h
          | cons a t => simp
        have := List.length_drop m l
        omega
      simp only [chunkAux, h, if_false, Bool.false_eq_true, List.flatten_cons]
      rw [ih (l.drop m) hlen, List.take_append_drop]

theorem chunkAux_mem_length {α : Type} (m : Nat) :
    ∀ fuel (l : List α), ∀ b ∈ chunkAux m fuel l, b.length ≤ m := by
  intro fuel
  induction fuel with
  | zero => intro l b hb; simp [chunkAux] at hb
  | succ n ih =>
    intro l b hb
    by_cases h : l.isEmpty
    · simp [chunkAux, h] at hb
    · simp only [chunkAux, h, if_false, Bool.false_eq_true, List.mem_cons] at hb
      rcases hb with hb | hb
      · subst hb
        exact List.length_take_le m l
      · exact ih (l.drop m) b hb

/-- C8: for positive maxSize the split round-trips (flatten gives back the
input, order preserved, nothing lost or duplicated) and every sub-list is
bounded by maxSize; degenerate inputs give an empty list of batches. -/
theorem splitIntoBatches_spec {α : Type} (items : List α) (maxSize : Int) :
    (0 < maxSize →
      (splitIntoBatches items maxSize).flatten = items ∧
      ∀ b ∈ splitIntoBatches items maxSize, b.length ≤ maxSize.toNat) ∧
    ((items = [] ∨ maxSize ≤ 0) → splitIntoBatches items maxSize = []) := by
  constructor
  · intro hpos
    by_cases hempty : items.isEmpty
    · constructor
      · simp [splitIntoBatches, hempty, List.isEmpty_iff.mp hempty]
      · intro b hb
        simp [splitIntoBatches, hempty] at hb
    · have hne : ¬ (items.isEmpty ∨ maxSize ≤ 0) := by
        push_neg
        exact ⟨by simpa using hempty, hpos⟩
      have hm : 0 < maxSize.toNat := by omega
      constructor
      · simp only [splitIntoBatches, hne, if_false]
        exact chunkAux_flatten maxSize.toNat hm items.length items (Nat.le_refl _)
      · intro b hb
        simp only [splitIntoBatches, hne, if_false] at hb
        exact chunkAux_mem_length maxSize.toNat items.length items b hb
  · intro h
    have hcond : items.isEmpty = true ∨ maxSize ≤ 0 := by
      rcases h with h | h
      · exact Or.inl (by simp [h])
      · exact Or.inr h
    unfold splitIntoBatches
    rw [if_pos hcond]

/-- Witness for C8 at the spec scenario split([A,B,C,D,E], 2). -/
theorem splitIntoBatches_spec_witness :
    (splitIntoBatches [1, 2, 3, 4, 5] (2 : Int)).flatten = [1, 2, 3, 4, 5] ∧
    splitIntoBatches ([] : List Nat) (2 : Int) = [] ∧
    splitIntoBatches [1, 2, 3, 4, 5] (2 : Int) = [[1, 2], [3, 4], [5]] :=
  ⟨((splitIntoBatches_spec [1, 2, 3, 4, 5] 2).1 (by decide)).1,
   (splitIntoBatches_spec ([] : List Nat) 2).2 (Or.inl rfl),
   by decide⟩

/-! ### Theorems: routing (C3, C4) -/

/-- C3: the routing decision skips on non-positive counts and on counts above
the hard ceiling 3000; otherwise the threshold starts at 50, becomes 20 for a
fill percentage below 30, becomes 75 for a fill percentage above 80, is then
lowered to min(threshold, 20) under heavy recent usage, and the route is
QUEUE exactly when the count exceeds this threshold, EDGE otherwise. -/
theorem shouldUseQueue_policy (n p u : Int) :
    (shouldUseQueue n (some p) (some u)).route =
      (if n ≤ 0 then Route.skip
       else if n > 3000 then Route.skip
       else if n > (if u > 2000 then
             min (if p < 30 then 20 else if p > 80 then 75 else 50) 20
           else if p < 30 then 20 else if p > 80 then 75 else 50) then Route.queue
       else Route.edge) ∧
    (shouldUseQueue n (some p) (some u)).threshold =
      (if n ≤ 0 then 0
       else if n > 3000 then 3000
       else if u > 2000 then
         min (if p < 30 then 20 else if p > 80 then 75 else 50) 20
       else if p < 30 then 20 else if p > 80 then 75 else 50) := by
  simp only [shouldUseQueue, MAX_NEW_PRODUCTS, EDGE_THRESHOLD]
  split_ifs <;> simp_all

/-- C4 counterexample: at itemCount 10, fillPercent 90, recentConsumption
2500 the code yields threshold 20 but route EDGE, not QUEUE as claimed. -/
theorem shouldUseQueue_10_90_2500_not_queue :
    (shouldUseQueue 10 (some 90) (some 2500)).route ≠ Route.queue ∧
    (shouldUseQueue 10 (some 90) (some 2500)).route = Route.edge ∧
    (shouldUseQueue 10 (some 90) (some 2500)).threshold = 20 := by
  refine ⟨?_, ?_, ?_⟩ <;> decide

/-- C4 amended: for itemCount 10, fillPercent 90, recentConsumption 2500 the
threshold is forced to 20 by the heavy-usage rule, and since 10 does not
exceed 20 the route is EDGE (inline), with the edge-processing reason. -/
theorem shouldUseQueue_10_90_2500_edge :
    (shouldUseQueue 10 (some 90) (some 2500)).threshold = 20 ∧
    (shouldUseQueue 10 (some 90) (some 2500)).route = Route.edge ∧
    (shouldUseQueue 10 (some 90) (some 2500)).reason =
      "Edge processing: Product count (10) within threshold (20)" := by
  refine ⟨?_, ?_, ?_⟩ <;> decide

/-! ### Theorems: delta detector (C9) -/

/-- C9 counterexample: with a duplicated candidate list the delta detector
returns duplicates; it does not deduplicate its output. -/
theorem determineNewAsins_dup :
    determineNewAsins [] ["B001", "B001"] = ["B001", "B001"] ∧
    ¬ (determineNewAsins [] ["B001", "B001"]).Nodup := by
  refine ⟨?_, ?_⟩ <;> decide

/-- C9 amended: the delta detector output has no duplicates provided the
case-normalized candidate list has none; duplicated candidates survive to the
output (see the counterexample). -/
theorem determineNewAsins_nodup_of_nodup (existing incoming : List String)
    (h : (incoming.map upper).Nodup) :
    (determineNewAsins existing incoming).Nodup := by
  unfold determineNewAsins
  apply List.Nodup.filter
  have hsub : ((incoming.filter (fun a => a != "")).map upper).Sublist
      (incoming.map upper) :=
    (List.filter_sublist incoming).map upper
  exact hsub.nodup h

/-- Witness for C9's amended theorem on a concrete duplicate-free input. -/
theorem determineNewAsins_nodup_witness :
    (determineNewAsins ["x1"] ["A1", "B2", "x1"]).Nodup ∧
    determineNewAsins ["x1"] ["A1", "B2", "x1"] = ["A1", "B2"] :=
  ⟨determineNewAsins_nodup_of_nodup ["x1"] ["A1", "B2", "x1"] (by decide), by decide⟩

/-! ### Lemmas: claim engine -/

theorem updateByIds_state_ids (st : List BatchRow) (ids : List Nat)
    (w : String) (now : Int) : rowIds (updateByIds st ids w now).2 = rowIds st := by
  simp only [updateByIds, rowIds, List.map_map]
  apply List.map_congr_left
  intro b _
  simp only [Function.comp_apply]
  split <;> rfl

theorem updateByIds_fst_length (st : List BatchRow) (ids : List Nat)
    (w : String) (now : Int) (h : (rowIds st).Nodup) :
    (updateByIds st ids w now).1.length ≤ ids.length := by
  have h2 : ((updateByIds st ids w now).2.map (fun b => b.id)).Nodup := by
    have e := updateByIds_state_ids st ids w now
    simp only [rowIds] at e h
    rw [e]
    exact h
  have hs1 : ((updateByIds st ids w now).1).Sublist (updateByIds st ids w now).2 :=
    List.filter_sublist _
  have hnd : ((updateByIds st ids w now).1.map fun b => b.id).Nodup :=
    (hs1.map (fun b => b.id)).nodup h2
  have hmem : ∀ x ∈ (updateByIds st ids w now).1.map (fun b => b.id), x ∈ ids := by
    intro x hx
    rcases List.mem_map.mp hx with ⟨b, hb, rfl⟩
    have hb' : b ∈ ((updateByIds st ids w now).2).filter (fun b => ids.contains b.id) := hb
    have hpb := List.of_mem_filter hb'
    simpa using hpb
  calc (updateByIds st ids w now).1.length
      = ((updateByIds st ids w now).1.map fun b => b.id).length := by
        rw [List.length_map]
    _ = ((updateByIds st ids w now).1.map fun b => b.id).toFinset.card :=
        (List.toFinset_card_of_nodup hnd).symm
    _ ≤ ids.toFinset.card :=
        Finset.card_le_card
          (fun x hx => List.mem_toFinset.mpr (hmem x (List.mem_toFinset.mp hx)))
    _ ≤ ids.length := ids.toFinset_card_le

theorem claimWhere_state_ids (st : List BatchRow) (p : BatchRow → Bool)
    (w : String) (lim : Nat) (now : Int) :
    rowIds (claimWhere st p w lim now).2 = rowIds st := by
  simp only [claimWhere]
  split
  · rfl
  · exact updateByIds_state_ids _ _ _ _

theorem claimWhere_fst_length (st : List BatchRow) (p : BatchRow → Bool)
    (w : String) (lim : Nat) (now : Int) (h : (rowIds st).Nodup) :
    (claimWhere st p w lim now).1.length ≤ lim := by
  simp only [claimWhere]
  split
  · simp
  · refine le_trans (updateByIds_fst_length _ _ _ _ h) ?_
    rw [List.length_map]
    exact List.length_take_le _ _

theorem claimRound_state_ids (st : List BatchRow) (sellerId workerId : String)
    (now : Int) (cap : Nat) :
    rowIds (claimRound st sellerId workerId now cap).2 = rowIds st := by
  simp only [claimRound, claimAssignedSeller, claimOrphanedBatches,
    claimCrossSellerBatches]
  split <;> split <;> simp [claimWhere_state_ids]

theorem claimRound_fst_length (st : List BatchRow) (sellerId workerId : String)
    (now : Int) (cap : Nat) (h : (rowIds st).Nodup) :
    (claimRound st sellerId workerId now cap).1.length ≤ cap := by
  simp only [claimRound, claimAssignedSeller, claimOrphanedBatches,
    claimCrossSellerBatches]
  rcases e1 : claimWhere st (assignedPred sellerId) workerId cap now with ⟨l1, s1⟩
  have h1 : l1.length ≤ cap := by
    have hx := claimWhere_fst_length st (assignedPred sellerId) workerId cap now h
    rw [e1] at hx
    exact hx
  have hn1 : (rowIds s1).Nodup := by
    have hx := claimWhere_state_ids st (assignedPred sellerId) workerId cap now
    rw [e1] at hx
    rw [show rowIds s1 = rowIds ((l1, s1) : List BatchRow × List BatchRow).2 from rfl, hx]
    exact h
  dsimp only
  by_cases g1 : 0 < cap - l1.length
  · rw [if_pos g1]
    rcases e2 : claimWhere s1 (orphanEligible now) workerId (cap - l1.length) now
      with ⟨l2, s2⟩
    have h2 : l2.length ≤ cap - l1.length := by
      have hx := claimWhere_fst_length s1 (orphanEligible now) workerId
        (cap - l1.length) now hn1
      rw [e2] at hx
      exact hx
    have hn2 : (rowIds s2).Nodup := by
      have hx := claimWhere_state_ids s1 (orphanEligible now) workerId
        (cap - l1.length) now
      rw [e2] at hx
      rw [show rowIds s2 = rowIds ((l2, s2) : List BatchRow × List BatchRow).2 from rfl, hx]
      exact hn1
    dsimp only
    by_cases g2 : 0 < cap - l1.length - l2.length
    · rw [if_pos g2]
      rcases e3 : claimWhere s2 (crossSellerPred sellerId) workerId
        (cap - l1.length - l2.length) now with ⟨l3, s3⟩
      have h3 : l3.length ≤ cap - l1.length - l2.length := by
        have hx := claimWhere_fst_length s2 (crossSellerPred sellerId) workerId
          (cap - l1.length - l2.length) now hn2
        rw [e3] at hx
        exact hx
      dsimp only
      simp only [List.length_append]
      omega
    · rw [if_neg g2]
      simp only [List.length_append, List.length_nil]
      omega
  · rw [if_neg g1]
    have hz : cap - l1.length = 0 := by omega
    simp only [List.length_nil, Nat.sub_zero, hz, Nat.lt_irrefl, if_false,
      List.length_append]
    omega

theorem claimLoop_state_ids (sellerId workerId : String) (now : Int) :
    ∀ fuel (st : List BatchRow) (cap : Nat),
      rowIds (claimLoop sellerId workerId now fuel st cap).2 = rowIds st := by
  intro fuel
  induction fuel with
  | zero => intro st cap; rfl
  | succ n ih =>
    intro st cap
    simp only [claimLoop]
    split
    · rfl
    · split
      · exact claimRound_state_ids _ _ _ _ _
      · rw [ih, claimRound_state_ids]

theorem claimLoop_fst_length (sellerId workerId : String) (now : Int) :
    ∀ fuel (st : List BatchRow) (cap : Nat), (rowIds st).Nodup →
      (claimLoop sellerId workerId now fuel st cap).1.length ≤ cap := by
  intro fuel
  induction fuel with
  | zero => intro st cap _; exact Nat.zero_le _
  | succ n ih =>
    intro st cap h
    simp only [claimLoop]
    split
    · exact Nat.zero_le _
    · split
      · exact Nat.zero_le _
      · have h1 := claimRound_fst_length st sellerId workerId now cap h
        have hn : (rowIds (claimRound st sellerId workerId now cap).2).Nodup := by
          rw [claimRound_state_ids]
          exact h
        have h2 := ih (claimRound st sellerId workerId now cap).2
          (cap - (claimRound st sellerId workerId now cap).1.length) hn
        simp only [List.length_append]
        omega

theorem claimLoop_three_eq (st : List BatchRow) (sellerId workerId : String)
    (lim : Nat) (now : Int) :
    claimLoop sellerId workerId now 3 st lim =
      claimSpecThreeRounds st sellerId workerId lim now := by
  have e1 : ∀ (fuel : Nat) (s : List BatchRow) (c : Nat),
      claimLoop sellerId workerId now (fuel + 1) s c =
        if c = 0 then ([], s)
        else if (claimRound s sellerId workerId now c).1.isEmpty then
          ([], (claimRound s sellerId workerId now c).2)
        else
          ((claimRound s sellerId workerId now c).1 ++
            (claimLoop sellerId workerId now fuel
              (claimRound s sellerId workerId now c).2
              (c - (claimRound s sellerId workerId now c).1.length)).1,
           (claimLoop sellerId workerId now fuel
              (claimRound s sellerId workerId now c).2
              (c - (claimRound s sellerId workerId now c).1.length)).2) :=
    fun _ _ _ => rfl
  have e0 : ∀ (s : List BatchRow) (c : Nat),
      claimLoop sellerId workerId now 0 s c = ([], s) := fun _ _ => rfl
  show claimLoop sellerId workerId now (2 + 1) st lim = _
  rw [e1, claimSpecThreeRounds]
  by_cases g0 : lim = 0
  · simp [g0]
  rw [if_neg g0, if_neg g0]
  by_cases g1 : (claimRound st sellerId workerId now lim).1.isEmpty
  · rw [if_pos g1, if_pos g1]
  rw [if_neg g1, if_neg g1]
  show (_ ++ (claimLoop sellerId workerId now (1 + 1) _ _).1,
        (claimLoop sellerId workerId now (1 + 1) _ _).2) = _
  rw [e1]
  by_cases g2 : lim - (claimRound st sellerId workerId now lim).1.length = 0
  · rw [if_pos g2, if_pos g2]
    simp
  rw [if_neg g2, if_neg g2]
  by_cases g3 : (claimRound (claimRound st sellerId workerId now lim).2
      sellerId workerId now
      (lim - (claimRound st sellerId workerId now lim).1.length)).1.isEmpty
  · rw [if_pos g3, if_pos g3]
    simp
  rw [if_neg g3, if_neg g3]
  show (_ ++ (_ ++ (claimLoop sellerId workerId now (0 + 1) _ _).1,
        (claimLoop sellerId workerId now (0 + 1) _ _).2).1, _) = _
  rw [e1]
  by_cases g4 : lim - (claimRound st sellerId workerId now lim).1.length -
      (claimRound (claimRound st sellerId workerId now lim).2 sellerId workerId now
        (lim - (claimRound st sellerId workerId now lim).1.length)).1.length = 0
  · rw [if_pos g4, if_pos g4]
    simp
  rw [if_neg g4, if_neg g4]
  by_cases g5 : (claimRound (claimRound (claimRound st sellerId workerId now lim).2
      sellerId workerId now
      (lim - (claimRound st sellerId workerId now lim).1.length)).2
      sellerId workerId now
      (lim - (claimRound st sellerId workerId now lim).1.length -
        (claimRound (claimRound st sellerId workerId now lim).2 sellerId workerId now
          (lim - (claimRound st sellerId workerId now lim).1.length)).1.length)).1.isEmpty
  · rw [if_pos g5]
    have : (claimRound (claimRound (claimRound st sellerId workerId now lim).2
        sellerId workerId now
        (lim - (claimRound st sellerId workerId now lim).1.length)).2
        sellerId workerId now
        (lim - (claimRound st sellerId workerId now lim).1.length -
          (claimRound (claimRound st sellerId workerId now lim).2 sellerId workerId now
            (lim - (claimRound st sellerId workerId now lim).1.length)).1.length)).1 = [] :=
      List.isEmpty_iff.mp g5
    simp [this]
  · rw [if_neg g5]
    rw [e0]
    simp

/-! ### Theorems: claim engine (C1, C2, C5) -/

/-- C1: concrete evaluation of the race the unconditioned update-by-id
admits.  Two workers run claimAssignedSeller concurrently on a table holding
one PENDING batch (id 1); with the interleaving A.select, B.select, A.update,
B.update both calls return batch 1 (the union of the returned batch lists has
a duplicate id), and worker B's update silently overwrites worker A's claim,
because the UPDATE carries no precondition on status or processing_by. -/
theorem claimAssignedSeller_race_double_claim :
    rowIds raceStepA.1 = [1] ∧ rowIds raceStepB.1 = [1] ∧
    ¬ (rowIds (raceStepA.1 ++ raceStepB.1)).Nodup ∧
    raceStepB.2 = [{ id := 1, seller_id := "S1", status := "PROCESSING",
                     processing_by := some "workerB", priority := "HIGH",
                     created_at := 0, started_at := some 1001,
                     updated_at := 1001 }] := by
  refine ⟨?_, ?_, ?_, ?_⟩ <;> decide

/-- C2: claimProductBatches is the three-tier sequence (owned pending, then
orphaned processing, then cross-seller pending, each tier offered only the
capacity left by earlier tiers) repeated for at most 3 rounds with early exit
on an empty round or exhausted capacity, and — whenever the table's batch ids
are distinct — it never returns more than limit batches. -/
theorem claimProductBatches_spec (st : List BatchRow) (sellerId workerId : String)
    (lim : Nat) (now : Int) (_hlim : 0 < lim) (h : (rowIds st).Nodup) :
    claimProductBatches st sellerId workerId lim now =
      claimSpecThreeRounds st sellerId workerId lim now ∧
    (claimProductBatches st sellerId workerId lim now).1.length ≤ lim :=
  ⟨claimLoop_three_eq st sellerId workerId lim now,
   claimLoop_fst_length sellerId workerId now 3 st lim h⟩

/-- Witness for C2 on a concrete two-row table. -/
theorem claimProductBatches_spec_witness :
    claimProductBatches demoState "S1" "w1" 2 1000 =
      claimSpecThreeRounds demoState "S1" "w1" 2 1000 ∧
    (claimProductBatches demoState "S1" "w1" 2 1000).1.length ≤ 2 :=
  claimProductBatches_spec demoState "S1" "w1" 2 1000 (by decide) (by decide)

/-- C5: the orphan tier's select keeps exactly the PROCESSING rows whose
started_at is strictly older than ten minutes, regardless of seller or
current claimer: a PROCESSING batch started 9 minutes ago is not claimed,
one started 11 minutes ago is. -/
theorem claimOrphanedBatches_boundary (now createdAt upd : Int)
    (sid prio wid : String) (pb : Option String) :
    (claimOrphanedBatches
      [{ id := 1, seller_id := sid, status := "PROCESSING", processing_by := pb,
         priority := prio, created_at := createdAt,
         started_at := some (now - 540000), updated_at := upd }] wid 1 now).1 = [] ∧
    rowIds (claimOrphanedBatches
      [{ id := 1, seller_id := sid, status := "PROCESSING", processing_by := pb,
         priority := prio, created_at := createdAt,
         started_at := some (now - 660000), updated_at := upd }] wid 1 now).1 = [1] ∧
    (∀ b : BatchRow, orphanEligible now b = true ↔
      b.status = "PROCESSING" ∧ ∃ t, b.started_at = some t ∧ t < now - 600000) := by
  refine ⟨?_, ?_, ?_⟩
  · have h9 : orphanEligible now
        { id := 1, seller_id := sid, status := "PROCESSING", processing_by := pb,
          priority := prio, created_at := createdAt,
          started_at := some (now - 540000), updated_at := upd } = false := by
      simp only [orphanEligible]
      simp only [Bool.and_eq_false_iff, decide_eq_false_iff_not]
      right
      omega
    simp [claimOrphanedBatches, claimWhere, sortRows, h9]
  · have h11 : orphanEligible now
        { id := 1, seller_id := sid, status := "PROCESSING", processing_by := pb,
          priority := prio, created_at := createdAt,
          started_at := some (now - 660000), updated_at := upd } = true := by
      simp only [orphanEligible]
      simp only [Bool.and_eq_true, decide_eq_true_eq]
      exact ⟨rfl, by omega⟩
    simp [claimOrphanedBatches, claimWhere, sortRows, h11, updateByIds,
      applyClaim, rowIds]
  · intro b
    cases hb : b.started_at with
    | none => simp [orphanEligible, hb]
    | some t =>
      simp only [orphanEligible, hb, Bool.and_eq_true, beq_iff_eq,
        decide_eq_true_eq]
      constructor
      · rintro ⟨hs, ht⟩
        exact ⟨hs, t, rfl, ht⟩
      · rintro ⟨hs, t2, ht2, hlt⟩
        cases ht2
        exact ⟨hs, hlt⟩

/-! ### Theorems: two-phase persistence (C6) -/

/-- C6: when the phase-1 template upsert fails, the phase-2 link upsert is
never issued, zero link rows are written, the success count is 0 and the
failed count equals the number of valid records (here, all products). -/
theorem insertProducts_phase1_failure (sellerId : String)
    (products : List KeepaProduct) (domain : Int) (db : DbOutcome)
    (msg processingSource nowIso : String)
    (h : db.templateUpsert = Except.error msg) :
    (insertProducts sellerId products domain db processingSource nowIso).phase2Called
        = false ∧
    (insertProducts sellerId products domain db processingSource nowIso).linkRowsWritten
        = [] ∧
    (insertProducts sellerId products domain db processingSource nowIso).result.success
        = 0 ∧
    (insertProducts sellerId products domain db processingSource nowIso).result.failed
        = products.length := by
  unfold insertProducts
  cases products with
  | nil => simp
  | cons p ps => simp [h]

/-- Witness for C6: one product, a failing template upsert. -/
theorem insertProducts_phase1_failure_witness :
    demoInsertFailTrace.phase2Called = false ∧
    demoInsertFailTrace.linkRowsWritten = [] ∧
    demoInsertFailTrace.result.success = 0 ∧
    demoInsertFailTrace.result.failed = 1 :=
  insertProducts_phase1_failure "seller-1" [demoProduct] 1 demoDbPhase1Fail
    "boom" "EDGE" "t0" rfl

/-! ### Theorems: processor final status (C7) -/

/-- The PARTIAL-collapsing status write of step 6, as a function of the
insert counters: it always lands on COMPLETED or FAILED. -/
theorem partialCollapse (su fa : Nat) :
    (if ((if su > 0 then if fa > 0 then "PARTIAL" else "COMPLETED" else "FAILED")
          == "PARTIAL") = true
     then "COMPLETED"
     else (if su > 0 then if fa > 0 then "PARTIAL" else "COMPLETED" else "FAILED"))
    = (if su > 0 then "COMPLETED" else "FAILED") := by
  by_cases hs : su > 0 <;> by_cases hf : fa > 0 <;> simp [hs, hf]

/-- C7: when validation passes, any batch-record creation succeeds and the
fetch returns products, the last status written to the batch row is FAILED
exactly when zero items succeeded and COMPLETED whenever at least one item
succeeded; item failures surface only in the failed count and the error
list, and PARTIAL is never written as a batch status. -/
theorem processProductBatch_final_status (sellerUuid : String)
    (asins : List String) (domain : Int) (keepaSellerId : String)
    (opts : ProcessOptions) (oracles : ProcessOracles) (nowIso : String)
    (products : List KeepaProduct)
    (h1 : asins ≠ [])
    (h2 : asins.length ≤ maxProductsFor opts.source)
    (h3 : opts.createBatch = false ∨ ∃ bid, oracles.createBatchResult = Except.ok bid)
    (h4 : oracles.fetchResult = Except.ok products) :
    ((processProductBatch sellerUuid asins domain keepaSellerId opts oracles
        nowIso).2.map StatusWrite.status).getLast?
      = some (if (insertProducts sellerUuid products domain oracles.db
          opts.source nowIso).result.success > 0 then "COMPLETED" else "FAILED") ∧
    (processProductBatch sellerUuid asins domain keepaSellerId opts oracles
        nowIso).1.processedCount
      = (insertProducts sellerUuid products domain oracles.db opts.source
          nowIso).result.success ∧
    (processProductBatch sellerUuid asins domain keepaSellerId opts oracles
        nowIso).1.failedCount
      = (insertProducts sellerUuid products domain oracles.db opts.source
          nowIso).result.failed ∧
    ((processProductBatch sellerUuid asins domain keepaSellerId opts oracles
        nowIso).1.errors
      = if (insertProducts sellerUuid products domain oracles.db opts.source
            nowIso).result.failed > 0 then
          [toString (insertProducts sellerUuid products domain oracles.db
            opts.source nowIso).result.failed ++ " products failed to process"]
        else []) ∧
    (∀ w ∈ (processProductBatch sellerUuid asins domain keepaSellerId opts
        oracles nowIso).2, w.status ≠ "PARTIAL") := by
  have hne : asins.isEmpty = false := by
    simpa [List.isEmpty_iff] using h1
  have hlen : ¬ (asins.length > maxProductsFor opts.source) := by omega
  have hcreated : (if opts.createBatch then oracles.createBatchResult
      else Except.ok (opts.batchId.getD "")) =
      Except.ok (match opts.createBatch, oracles.createBatchResult with
        | true, Except.ok bid => bid
        | true, Except.error _ => ""
        | false, _ => opts.batchId.getD "") := by
    rcases h3 with h3 | ⟨bid, h3⟩
    · simp [h3]
    · cases hcb : opts.createBatch <;> simp [h3]
  unfold processProductBatch
  rw [hne]
  simp only [Bool.false_eq_true, if_false]
  rw [if_neg hlen, hcreated, h4]
  dsimp only
  generalize (insertProducts sellerUuid products domain oracles.db opts.source
    nowIso).result = k
  refine ⟨?_, rfl, rfl, rfl, ?_⟩
  · simp only [List.singleton_append, List.map_cons, List.map_nil]
    rw [List.getLast?_cons_cons, List.getLast?_singleton]
    exact congrArg some (partialCollapse k.success k.failed)
  · intro w hw
    simp only [List.singleton_append, List.mem_cons, List.not_mem_nil, or_false] at hw
    rcases hw with hw | hw
    · subst hw
      decide
    · subst hw
      show (if ((if k.success > 0 then if k.failed > 0 then "PARTIAL" else "COMPLETED"
            else "FAILED") == "PARTIAL") = true then "COMPLETED"
          else (if k.success > 0 then if k.failed > 0 then "PARTIAL" else "COMPLETED"
            else "FAILED")) ≠ "PARTIAL"
    
      rw [partialCollapse k.success k.failed]
      by_cases hs : k.success > 0 <;> simp [hs]

/-- Witness for C7: one product fetched and persisted successfully. -/
theorem processProductBatch_final_status_witness :
    (demoProcessRun.2.map StatusWrite.status).getLast? = some "COMPLETED" ∧
    demoProcessRun.1.processedCount = 1 ∧
    demoProcessRun.1.failedCount = 0 := by
  have h := processProductBatch_final_status "seller-1" ["B000TEST01"] 1
    "KSELLER" demoProcessOpts demoProcessOracles "t0" [demoProduct]
    (by decide) (by decide) (Or.inl rfl) rfl
  refine ⟨?_, ?_, ?_⟩
  · have h1 := h.1
    simpa using h1
  · have h1 := h.2.1
    simpa using h1
  · have h1 := h.2.2.1
    simpa using h1

/-! ### Theorems: enqueue priority cutoff (C10) -/

/-- C10: every batch record built by one queue-path enqueue call carries the
same priority, HIGH exactly when the call's total new-product count is at
most 200 and LOW otherwise, and the same 200-item cutoff decides the
priority of the at-most-one dispatched processing job. -/
theorem enqueue_priority_cutoff (sellerUuid : String) (newProducts : List String)
    (userId : Option String) (isTimeMachine : Bool) (env : EnqueueOracles) :
    (∀ r ∈ createSmartBatchRecords sellerUuid newProducts userId isTimeMachine,
      r.priority = if newProducts.length ≤ 200 then "HIGH" else "LOW") ∧
    (∀ r ∈ (enqueueProductBatches sellerUuid newProducts userId isTimeMachine env).1,
      r.priority = if newProducts.length ≤ 200 then "HIGH" else "LOW") ∧
    (∀ c ∈ (enqueueProductBatches sellerUuid newProducts userId isTimeMachine env).2,
      c.priority = if newProducts.length ≤ 200 then "HIGH" else "LOW") ∧
    (enqueueProductBatches sellerUuid newProducts userId isTimeMachine env).2.length ≤ 1 := by
  simp only [show (200 : Nat) = SMART_ROUTING_THRESHOLD from rfl]
  have hrec : ∀ r ∈ createSmartBatchRecords sellerUuid newProducts userId isTimeMachine,
      r.priority = if newProducts.length ≤ SMART_ROUTING_THRESHOLD then "HIGH" else "LOW" := by
    intro r hr
    rcases List.mem_map.mp hr with ⟨c, _, rfl⟩
    rfl
  refine ⟨hrec, ?_, ?_, ?_⟩
  · intro r hr
    unfold enqueueProductBatches at hr
    dsimp only at hr
    split_ifs at hr <;> exact hrec r (by simpa using hr)
  · intro c hc
    unfold enqueueProductBatches at hc
    dsimp only at hc
    split_ifs at hc with g1 g2 g3 g4 g5 <;> simp at hc
    · subst hc
      simp [g5]
    · subst hc
      simp [g5]
  · unfold enqueueProductBatches
    dsimp only
    split_ifs <;> simp

end StealthSeller